import Mathlib

/-!
# ChemCP — verification of the fingerprint-similarity core and comparison workflow

This development shallowly embeds the self-contained logic of the ChemCP
molecule-viewer app:

* `calculateTanimoto`, the Tanimoto/Jaccard similarity over two binary
  fingerprint strings (a direct transliteration of the JavaScript loop,
  including its behaviour on out-of-range indices, where `fp[i]` is
  `undefined` and hence compares unequal to the character `'1'`);
* the comparison-workflow state of the React component (`AppState`), its
  event handlers (`submitReference`, `submitComparison`,
  `changeFingerprintType`, `toggleComparison`, `clearComparison`, …) and the
  render routine `renderMolecule`, with the external RDKit engine abstracted
  as a function from a SMILES string to a molecule result.

Modelling conventions:

* JavaScript numbers are modelled as `ℚ` (all quantities involved are exact
  small rationals; the `union === 0` guard rules division by zero out).
* React state updates and effect scheduling are modelled synchronously: an
  event handler's state updates are applied, and then each `useEffect` whose
  dependencies changed by that update runs once.  Event handlers and effect
  bodies are fresh closures on every render and read current state; the
  values an effect passes as *arguments* (e.g. the current `smiles` /
  `compareSmiles` handed to `renderMolecule`) are current.  `renderMolecule`
  itself, however, is memoized with `useCallback(..., [])`: the memoized
  closure is created once, on the first render, so the component state
  variables free in its body — `fingerprintType`, `compareSmiles` and
  `smiles` — stay frozen at their first-render values `'morgan'`, `""` and
  `""` for the lifetime of the component (only the stable `set*` updaters
  and the `rdkitRef` ref see current data).  The model renders with these
  frozen captures (`capturedFingerprintType`, `capturedCompareSmiles`,
  `capturedSmiles`); in particular the similarity block of `renderMolecule`
  is dead code, since its guard reads the frozen `compareSmiles = ""`.
  Engine initialisation (`rdkitLoading` / `rdkitError`) is taken as already
  completed, since every render path modelled here is guarded on a loaded
  engine.
* The RDKit engine is external (a WASM module); it is modelled as an
  arbitrary function `Engine` from strings to molecule results, where a
  result is a thrown exception, a null molecule, or a molecule record whose
  fields (validity, SVG, canonical SMILES, preformatted descriptor strings,
  optional fingerprints of the two kinds) are exactly the values the source
  extracts from an `RDKitMol` handle.  Descriptor JSON parsing and numeric
  formatting happen engine-side in the model; a fingerprint field of `none`
  models `get_*_fp_as_binary_text` throwing (the source catches this and
  returns `null`).
-/

/-! ## Tanimoto similarity (source: `calculateTanimoto`, part_000 lines 80–93) -/

/-- Bit read of the source loop: `fp[i] === '1' ? 1 : 0`.  An out-of-range
index yields `undefined` in JavaScript, which is not `'1'`; the default
character `'0'` used by `List.getD` is likewise not `'1'`, so both in-range
non-`'1'` characters and out-of-range reads give the bit `0`. -/
def bitOf (fp : String) (i : Nat) : Nat :=
  if fp.data.getD i '0' = '1' then 1 else 0

/-- Loop body of `calculateTanimoto`: update the `(intersection, union)`
accumulator at index `i`. -/
def tanimotoStep (fp1 fp2 : String) (acc : Nat × Nat) (i : Nat) : Nat × Nat :=
  let bit1 := bitOf fp1 i
  let bit2 := bitOf fp2 i
  (if bit1 = 1 ∧ bit2 = 1 then acc.1 + 1 else acc.1,
   if bit1 = 1 ∨ bit2 = 1 then acc.2 + 1 else acc.2)

/-- The `for (let i = 0; i < fp1.length; i++)` loop of `calculateTanimoto`,
starting from `intersection = 0`, `union = 0`. -/
def tanimotoLoop (fp1 fp2 : String) : Nat × Nat :=
  (List.range fp1.length).foldl (tanimotoStep fp1 fp2) (0, 0)

/-- Transliteration of `calculateTanimoto` (part_000 lines 80–93):
`return union === 0 ? 0 : intersection / union;`. -/
def calculateTanimoto (fp1 fp2 : String) : ℚ :=
  let c := tanimotoLoop fp1 fp2
  if c.2 = 0 then 0 else (c.1 : ℚ) / (c.2 : ℚ)

/-! ### Specification-side counting functions

These follow the spec's wording: `intersection` is the number of positions
where both bits are 1, `union` the number of positions where at least one
bit is 1; the positions range over `[0, fp1.length)` as in the source loop. -/

/-- Number of positions `i < fp1.length` where both bits are 1. -/
def interCount (fp1 fp2 : String) : Nat :=
  (List.range fp1.length).countP fun i => decide (bitOf fp1 i = 1 ∧ bitOf fp2 i = 1)

/-- Number of positions `i < fp1.length` where at least one bit is 1. -/
def unionCount (fp1 fp2 : String) : Nat :=
  (List.range fp1.length).countP fun i => decide (bitOf fp1 i = 1 ∨ bitOf fp2 i = 1)

/-- A binary fingerprint string consists solely of `'0'` and `'1'`
characters. -/
def isBinaryFp (fp : String) : Prop :=
  ∀ c ∈ fp.data, c = '0' ∨ c = '1'

instance : DecidablePred isBinaryFp := fun fp =>
  inferInstanceAs (Decidable (∀ c ∈ fp.data, c = '0' ∨ c = '1'))

/-- An all-zero fingerprint: no position holds the bit 1. -/
def allZeroFp (fp : String) : Prop :=
  ∀ c ∈ fp.data, c ≠ '1'

instance : DecidablePred allZeroFp := fun fp =>
  inferInstanceAs (Decidable (∀ c ∈ fp.data, c ≠ '1'))

/-- Accumulator lemma for the similarity loop: folding `tanimotoStep` over any
index list adds the two counts to the starting accumulator. -/
theorem foldl_tanimotoStep (fp1 fp2 : String) (l : List Nat) (a b : Nat) :
    l.foldl (tanimotoStep fp1 fp2) (a, b) =
      (a + l.countP (fun i => decide (bitOf fp1 i = 1 ∧ bitOf fp2 i = 1)),
       b + l.countP (fun i => decide (bitOf fp1 i = 1 ∨ bitOf fp2 i = 1))) := by
  induction l generalizing a b with
  | nil => simp
  | cons i l ih =>
      simp only [List.foldl_cons, List.countP_cons, ih, tanimotoStep]
      by_cases h1 : bitOf fp1 i = 1 ∧ bitOf fp2 i = 1 <;>
        by_cases h2 : bitOf fp1 i = 1 ∨ bitOf fp2 i = 1 <;>
          simp [h1, h2] <;> omega

/-- The loop computes exactly the two specification counts. -/
theorem tanimotoLoop_eq (fp1 fp2 : String) :
    tanimotoLoop fp1 fp2 = (interCount fp1 fp2, unionCount fp1 fp2) := by
  unfold tanimotoLoop interCount unionCount
  rw [foldl_tanimotoStep]
  simp

/-- Pointwise, "both bits 1" implies "some bit 1", so the intersection count
never exceeds the union count. -/
theorem interCount_le_unionCount (fp1 fp2 : String) :
    interCount fp1 fp2 ≤ unionCount fp1 fp2 := by
  apply List.countP_mono_left
  intro i _ h
  simp only [decide_eq_true_eq] at h ⊢
  exact Or.inl h.1

/-- Closed form of `calculateTanimoto` in terms of the two counts. -/
theorem calculateTanimoto_eq (fp1 fp2 : String) :
    calculateTanimoto fp1 fp2 =
      if unionCount fp1 fp2 = 0 then 0
      else (interCount fp1 fp2 : ℚ) / (unionCount fp1 fp2 : ℚ) := by
  simp [calculateTanimoto, tanimotoLoop_eq]

/-! ## Claim C1: the loop computes intersection/union -/

/-- C1.  For every pair of equal-length binary fingerprint strings `A` and
`B`, `calculateTanimoto A B` equals `intersection / union`, where `union`
counts the positions where at least one bit is 1 and `intersection` counts
the positions where both bits are 1.  (When `union = 0` both counts are 0
and both sides are 0, matching the source's explicit tie-break.) -/
theorem calculateTanimoto_inter_div_union (A B : String)
    (hlen : A.length = B.length) (hA : isBinaryFp A) (hB : isBinaryFp B) :
    calculateTanimoto A B = (interCount A B : ℚ) / (unionCount A B : ℚ) := by
  rcases Nat.eq_zero_or_pos (unionCount A B) with h | h
  · have hi : interCount A B = 0 :=
      Nat.le_zero.mp (h ▸ interCount_le_unionCount A B)
    rw [calculateTanimoto_eq, if_pos h, h, hi]
    norm_num
  · rw [calculateTanimoto_eq, if_neg (Nat.pos_iff_ne_zero.mp h)]

/-- Witness for C1 at the concrete pair `"1100"`, `"1010"`. -/
theorem calculateTanimoto_inter_div_union_witness :
    calculateTanimoto "1100" "1010" =
      (interCount "1100" "1010" : ℚ) / (unionCount "1100" "1010" : ℚ) :=
  calculateTanimoto_inter_div_union "1100" "1010" (by decide) (by decide) (by decide)

/-! ## Claim C7: reflexivity with the all-zero tie-break -/

/-- On the diagonal the two counted predicates agree, so the intersection and
union counts coincide. -/
theorem interCount_self (A : String) : interCount A A = unionCount A A := by
  unfold interCount unionCount
  exact List.countP_congr fun i _ => by simp

/-- The union count of a string against itself vanishes exactly when the
string holds no `'1'` character. -/
theorem unionCount_self_eq_zero_iff (A : String) :
    unionCount A A = 0 ↔ allZeroFp A := by
  unfold unionCount
  rw [List.countP_eq_zero]
  constructor
  · intro h c hc hc1
    obtain ⟨i, hi, hget⟩ := List.mem_iff_getElem.mp hc
    refine h i (List.mem_range.mpr hi) ?_
    simp only [decide_eq_true_eq]
    have : bitOf A i = 1 := by
      unfold bitOf
      rw [List.getD_eq_getElem A.data '0' hi, hget, if_pos (hc1 ▸ rfl)]
    exact Or.inl this
  · intro h i hi
    simp only [List.mem_range] at hi
    simp only [decide_eq_true_eq, or_self]
    unfold bitOf
    rw [List.getD_eq_getElem A.data '0' hi]
    intro hbit
    split at hbit
    · exact h _ (List.getElem_mem hi) (by assumption)
    · exact absurd hbit (by norm_num)

/-- C7.  For every equal-length binary fingerprint `A`,
`calculateTanimoto A A = 1`, except when `A` is all-zero, in which case the
result is exactly `0` (the zero-union tie-break, never a division by
zero). -/
theorem calculateTanimoto_self (A : String) (hA : isBinaryFp A) :
    (allZeroFp A → calculateTanimoto A A = 0) ∧
    (¬ allZeroFp A → calculateTanimoto A A = 1) := by
  constructor
  · intro hz
    rw [calculateTanimoto_eq, if_pos ((unionCount_self_eq_zero_iff A).mpr hz)]
  · intro hz
    have hu : unionCount A A ≠ 0 := fun h => hz ((unionCount_self_eq_zero_iff A).mp h)
    rw [calculateTanimoto_eq, if_neg hu, interCount_self]
    exact div_self (Nat.cast_ne_zero.mpr hu)

/-- Witness for C7, exercising both the generic branch (`"0101"`, giving 1)
and the all-zero tie-break (`"00"`, giving 0). -/
theorem calculateTanimoto_self_witness :
    calculateTanimoto "0101" "0101" = 1 ∧ calculateTanimoto "00" "00" = 0 :=
  ⟨(calculateTanimoto_self "0101" (by decide)).2 (by decide),
   (calculateTanimoto_self "00" (by decide)).1 (by decide)⟩

/-! ## Claim C8: symmetry for equal lengths -/

/-- C8.  For every pair of equal-length binary fingerprints,
`calculateTanimoto A B = calculateTanimoto B A`. -/
theorem calculateTanimoto_symm (A B : String) (hlen : A.length = B.length) :
    calculateTanimoto A B = calculateTanimoto B A := by
  have hinter : interCount A B = interCount B A := by
    unfold interCount
    rw [hlen]
    exact List.countP_congr fun i _ => by
      simp only [decide_eq_true_eq]
      exact and_comm
  have hunion : unionCount A B = unionCount B A := by
    unfold unionCount
    rw [hlen]
    exact List.countP_congr fun i _ => by
      simp only [decide_eq_true_eq]
      exact or_comm
  rw [calculateTanimoto_eq, calculateTanimoto_eq, hinter, hunion]

/-- Witness for C8 at the concrete pair `"110"`, `"011"`. -/
theorem calculateTanimoto_symm_witness :
    calculateTanimoto "110" "011" = calculateTanimoto "011" "110" :=
  calculateTanimoto_symm "110" "011" (by decide)

/-! ## Claim C10: totality on arbitrary strings -/

/-- Normalisation of an arbitrary string to a 0/1 string, mapping every
character other than `'1'` to `'0'`; used to state that the source treats
every non-`'1'` character as a 0-bit. -/
def normalizeFp (fp : String) : String :=
  String.mk (fp.data.map fun c => if c = '1' then '1' else '0')

/-- Normalisation preserves the length. -/
theorem length_normalizeFp (fp : String) : (normalizeFp fp).length = fp.length := by
  show (fp.data.map _).length = fp.data.length
  exact List.length_map _ _

/-- Normalisation preserves every bit read, in or out of range. -/
theorem bitOf_normalizeFp (fp : String) (i : Nat) :
    bitOf (normalizeFp fp) i = bitOf fp i := by
  unfold bitOf normalizeFp
  rcases Nat.lt_or_ge i fp.data.length with h | h
  · rw [List.getD_eq_getElem _ '0' (by simpa using h), List.getD_eq_getElem _ '0' h,
      List.getElem_map]
    by_cases hc : fp.data[i] = '1' <;> simp [hc]
  · rw [List.getD_eq_getElem?_getD, List.getD_eq_getElem?_getD,
      List.getElem?_eq_none (by simpa using h), List.getElem?_eq_none h]

/-- The two counts only depend on the bits, hence are invariant under
normalisation. -/
theorem counts_normalizeFp (A B : String) :
    interCount (normalizeFp A) (normalizeFp B) = interCount A B ∧
    unionCount (normalizeFp A) (normalizeFp B) = unionCount A B := by
  refine ⟨?_, ?_⟩
  · unfold interCount
    rw [length_normalizeFp]
    exact List.countP_congr fun i _ => by
      simp only [decide_eq_true_eq, bitOf_normalizeFp]
  · unfold unionCount
    rw [length_normalizeFp]
    exact List.countP_congr fun i _ => by
      simp only [decide_eq_true_eq, bitOf_normalizeFp]

/-- C10.  `calculateTanimoto` is a total, deterministic function on arbitrary
pairs of strings: every character other than `'1'` is treated as a 0-bit
(the result is unchanged by `normalizeFp`), and the result is always a
rational number in `[0, 1]` — never a failure and never a `NaN` (the
`union = 0` case is the guarded tie-break).  Totality and determinism are
inherent: `calculateTanimoto` is a total Lean function of its two
arguments. -/
theorem calculateTanimoto_total (A B : String) :
    calculateTanimoto A B = calculateTanimoto (normalizeFp A) (normalizeFp B) ∧
    0 ≤ calculateTanimoto A B ∧ calculateTanimoto A B ≤ 1 := by
  refine ⟨?_, ?_, ?_⟩
  · rw [calculateTanimoto_eq, calculateTanimoto_eq,
      (counts_normalizeFp A B).1, (counts_normalizeFp A B).2]
  · rw [calculateTanimoto_eq]
    split
    · exact le_refl 0
    · positivity
  · rw [calculateTanimoto_eq]
    split
    · exact zero_le_one
    · rename_i h
      rw [div_le_one (by positivity)]
      exact_mod_cast interCount_le_unionCount A B

/-! ## Claim C2: behaviour on unequal lengths -/

/-- Truncation of a fingerprint string to its first `n` characters; used to
state the claim that unequal-length inputs behave like truncation to the
shorter length. -/
def truncTo (n : Nat) (fp : String) : String :=
  String.mk (fp.data.take n)

/-- Counterexample to C2 as stated: with `A = "11"` and `B = "1"`, the source
returns `1/2` (position 1 reads `B` out of range as a 0-bit but still counts
`A`'s 1-bit towards the union), whereas truncating both strings to the
shorter length `1` gives `1`. -/
theorem calculateTanimoto_trunc_counterexample :
    ¬ (calculateTanimoto "11" "1" =
        calculateTanimoto (truncTo (min (String.length "11") (String.length "1")) "11")
          (truncTo (min (String.length "11") (String.length "1")) "1")) := by
  intro h
  have hm : min (String.length "11") (String.length "1") = 1 := by decide
  rw [hm] at h
  have h1 : calculateTanimoto "11" "1" = 1 / 2 := by rfl
  have h2 : calculateTanimoto (truncTo 1 "11") (truncTo 1 "1") = 1 := by
    have hl : tanimotoLoop (truncTo 1 "11") (truncTo 1 "1") = (1, 1) := by decide
    simp [calculateTanimoto, hl]
  rw [h1, h2] at h
  norm_num at h

/-- Adjustment of the second fingerprint to the first one's length: keep the
first `n` characters and extend with `'0'` (a 0-bit, exactly how the source
reads the out-of-range `undefined`). -/
def fitTo (n : Nat) (fp : String) : String :=
  String.mk (fp.data.take n ++ List.replicate (n - fp.data.length) '0')

/-- Within the first `n` positions, `fitTo n B` reads the same character
(up to the `'0'` default) as `B`. -/
theorem getD_fitTo (n : Nat) (B : String) (i : Nat) (hi : i < n) :
    (fitTo n B).data.getD i '0' = B.data.getD i '0' := by
  show (B.data.take n ++ List.replicate (n - B.data.length) '0').getD i '0' = _
  rw [List.getD_eq_getElem?_getD, List.getD_eq_getElem?_getD, List.getElem?_append,
    List.getElem?_take, List.length_take]
  rcases Nat.lt_or_ge i B.data.length with h | h
  · rw [if_pos (Nat.lt_min.mpr ⟨hi, h⟩), if_pos hi]
  · rw [if_neg (by omega), List.getElem?_replicate, if_pos (by omega),
      List.getElem?_eq_none h]
    rfl

/-- Within the first `n` positions, `fitTo n B` reads the same bits as `B`. -/
theorem bitOf_fitTo (n : Nat) (B : String) (i : Nat) (hi : i < n) :
    bitOf (fitTo n B) i = bitOf B i := by
  unfold bitOf
  rw [getD_fitTo n B i hi]

/-- C2 (amended).  `calculateTanimoto` compares exactly the first
`A.length` positions: trailing characters of `B` beyond `A.length` are
ignored, and when `A` is the longer string the missing positions of `B` are
read as 0-bits — equivalently, `B` is truncated/zero-extended to `A`'s
length, not both strings to the shorter length. -/
theorem calculateTanimoto_first_arg_length (A B : String) :
    calculateTanimoto A B = calculateTanimoto A (fitTo A.length B) := by
  have hinter : interCount A (fitTo A.length B) = interCount A B := by
    unfold interCount
    exact List.countP_congr fun i hi => by
      simp only [decide_eq_true_eq, bitOf_fitTo A.length B i (List.mem_range.mp hi)]
  have hunion : unionCount A (fitTo A.length B) = unionCount A B := by
    unfold unionCount
    exact List.countP_congr fun i hi => by
      simp only [decide_eq_true_eq, bitOf_fitTo A.length B i (List.mem_range.mp hi)]
  rw [calculateTanimoto_eq, calculateTanimoto_eq, hinter, hunion]

/-! ## The comparison workflow (source: `ChemCPApp`, part_000 lines 113–452)

The React component state is embedded as an explicit record, the RDKit
engine as an abstract function, and each event handler (together with the
`useEffect` re-renders its state updates trigger) as a state-to-state
function. -/

/-- Model of JavaScript `String.prototype.trim()`: drop whitespace from both
ends of the character list.  (Lean's own `String.trim` is defined by
well-founded recursion on byte positions and does not reduce, so the model
carries its own executable transliteration.) -/
def jsTrim (s : String) : String :=
  String.mk (((s.data.dropWhile Char.isWhitespace).reverse.dropWhile
    Char.isWhitespace).reverse)

/-- The head of a `dropWhile` result never satisfies the dropped
predicate. -/
theorem dropWhile_head_not {p : Char → Bool} {l : List Char} {c : Char}
    {l2 : List Char} (h : l.dropWhile p = c :: l2) : p c = false := by
  induction l with
  | nil => simp at h
  | cons a l ih =>
      rw [List.dropWhile_cons] at h
      split at h
      · exact ih h
      · cases h
        simp_all

/-- When `dropWhile` consumes the whole list, every element satisfied the
predicate. -/
theorem all_of_dropWhile_eq_nil {p : Char → Bool} {l : List Char}
    (h : l.dropWhile p = []) : ∀ c ∈ l, p c = true := by
  induction l with
  | nil => simp
  | cons a l ih =>
      rw [List.dropWhile_cons] at h
      split at h
      · intro c hc
        rcases List.mem_cons.mp hc with rfl | hc
        · assumption
        · exact ih h c hc
      · simp at h

/-- A string with a non-blank trim still has a non-blank trim after a second
trim; this is the fact needed to chain the `handleSubmit` guard
(`inputSmiles.trim()`) into the `renderMolecule` guard
(`smilesStr.trim()`). -/
theorem jsTrim_jsTrim_ne_empty {s : String} (h : jsTrim s ≠ "") :
    jsTrim (jsTrim s) ≠ "" := by
  intro hcon
  apply h
  unfold jsTrim at hcon ⊢
  rcases hr : ((s.data.dropWhile Char.isWhitespace).reverse.dropWhile
      Char.isWhitespace) with _ | ⟨c, r2⟩
  · simp [hr]
  · exfalso
    have hdata : ((((String.mk (c :: r2).reverse).data.dropWhile
        Char.isWhitespace).reverse.dropWhile Char.isWhitespace).reverse) = [] := by
      have := congrArg String.data hcon
      rw [hr] at this
      simpa using this
    rw [List.reverse_eq_nil_iff] at hdata
    have hw : ∀ x ∈ ((String.mk (c :: r2).reverse).data.dropWhile
        Char.isWhitespace), Char.isWhitespace x = true := by
      intro x hx
      have hall := all_of_dropWhile_eq_nil hdata
      exact hall x (by simpa using List.mem_reverse.mpr hx)
    have hwd : ((String.mk (c :: r2).reverse).data.dropWhile
        Char.isWhitespace) = [] := by
      rcases hd : ((String.mk (c :: r2).reverse).data.dropWhile
          Char.isWhitespace) with _ | ⟨d, l2⟩
      · rfl
      · have h1 : Char.isWhitespace d = false := dropWhile_head_not hd
        have h2 : Char.isWhitespace d = true := hw d (hd ▸ List.mem_cons_self d l2)
        simp [h1] at h2
    have hcw : Char.isWhitespace c = true := by
      have hall := all_of_dropWhile_eq_nil hwd
      exact hall c (by simp)
    have hcnw : Char.isWhitespace c = false := dropWhile_head_not hr
    simp [hcnw] at hcw

/-- The two fingerprint kinds of the UI selector: Morgan (circular, ECFP4)
and RDKit pattern (topological). -/
inductive FingerprintType where
  | morgan
  | pattern
deriving DecidableEq, Repr

/-- Model of an `RDKitMol` handle as the engine-supplied values the source
reads off it: validity, rendered SVG, canonical SMILES, InChI, the
descriptor bag (already JSON-parsed and number-formatted engine-side; an
empty string models an absent descriptor, as in the source's fallback
`""` defaults), and the two optional fingerprint binary strings (`none`
models `get_*_fp_as_binary_text` throwing, which `generateFingerprint`
catches and turns into `null`). -/
structure RDKitMol where
  is_valid : Bool
  svg : String
  smiles : String
  inchi : String
  exactMW : String
  avgMW : String
  logP : String
  hbDonors : String
  hbAcceptors : String
  tpsa : String
  rotBonds : String
  rings : String
  aromaticRings : String
  heavyAtoms : String
  fractionCSP3 : String
  morgan_fp : Option String
  pattern_fp : Option String
deriving DecidableEq, Repr

/-- Result of `RDKit.get_mol(input)`: the call can throw, return `null`, or
return a molecule handle. -/
inductive MolResult where
  | thrown (msg : String)
  | nullMol
  | ok (mol : RDKitMol)
deriving DecidableEq, Repr

/-- The external structure engine: SMILES string in, molecule result out. -/
def Engine : Type := String → MolResult

/-- Transliteration of `generateFingerprint` (part_000 lines 96–110): Morgan
fingerprint with `radius = 2, nBits = 2048` (parameters applied
engine-side), or the pattern fingerprint; a thrown generation is `none`. -/
def generateFingerprint (mol : RDKitMol) (t : FingerprintType) : Option String :=
  match t with
  | .morgan => mol.morgan_fp
  | .pattern => mol.pattern_fp

/-- The `MolProperties` record of the source (part_000 lines 31–45). -/
structure MolProperties where
  canonicalSmiles : String
  inchi : String
  exactMW : String
  avgMW : String
  logP : String
  hbDonors : String
  hbAcceptors : String
  tpsa : String
  rotBonds : String
  rings : String
  aromaticRings : String
  heavyAtoms : String
  fractionCSP3 : String
deriving DecidableEq, Repr

/-- Construction of the `props` record in `renderMolecule` (part_000 lines
296–348): canonical SMILES from `get_smiles()`, best-effort InChI and
descriptors. -/
def mkProps (mol : RDKitMol) : MolProperties :=
  { canonicalSmiles := mol.smiles
    inchi := mol.inchi
    exactMW := mol.exactMW
    avgMW := mol.avgMW
    logP := mol.logP
    hbDonors := mol.hbDonors
    hbAcceptors := mol.hbAcceptors
    tpsa := mol.tpsa
    rotBonds := mol.rotBonds
    rings := mol.rings
    aromaticRings := mol.aromaticRings
    heavyAtoms := mol.heavyAtoms
    fractionCSP3 := mol.fractionCSP3 }

/-- The component state of `ChemCPApp` (part_000 lines 114–127), one field
per `useState` hook relevant to the rendering/comparison workflow. -/
structure AppState where
  smiles : String
  inputSmiles : String
  svgHtml : String
  properties : Option MolProperties
  error : String
  compareSmiles : String
  compareInputSmiles : String
  compareSvgHtml : String
  compareProperties : Option MolProperties
  fingerprintType : FingerprintType
  tanimotoScore : Option ℚ
  showComparison : Bool

/-- The initial component state: every string empty, no records, Morgan
fingerprints selected, comparison hidden. -/
def initialState : AppState :=
  { smiles := ""
    inputSmiles := ""
    svgHtml := ""
    properties := none
    error := ""
    compareSmiles := ""
    compareInputSmiles := ""
    compareSvgHtml := ""
    compareProperties := none
    fingerprintType := .morgan
    tanimotoScore := none
    showComparison := false }

/-- Shared failure path of `renderMolecule`: clear the rendered SVG and the
properties of the affected role (part_000 lines 266–272 and 386–392). -/
def clearRoleDisplay (st : AppState) (isComparison : Bool) : AppState :=
  if isComparison then { st with compareSvgHtml := "", compareProperties := none }
  else { st with svgHtml := "", properties := none }

/-- JavaScript truthiness of `fingerprint` (a `string | null`): non-null and
non-empty. -/
def fpTruthy (o : Option String) : Bool :=
  match o with
  | some s => !(s == "")
  | none => false

/-- First-render capture of `fingerprintType` by the `useCallback(..., [])`
memoization of `renderMolecule` (part_000 line 397): the memoized closure is
created on the initial render, where `useState` gave `'morgan'`, and its
empty dependency list means it is never recreated, so every fingerprint
generated inside `renderMolecule` uses this frozen kind regardless of the
selector. -/
def capturedFingerprintType : FingerprintType := .morgan

/-- First-render capture of `compareSmiles` by the same `useCallback([])`
closure: frozen at the initial `""`, which makes the similarity guard at
part_000 line 359 (`isComparison && fingerprint && compareSmiles`) falsy
forever — the score-setting branch is dead code. -/
def capturedCompareSmiles : String := ""

/-- First-render capture of `smiles` by the same `useCallback([])` closure:
frozen at the initial `""` (read at part_000 line 362 when re-deriving the
reference molecule inside the — dead — similarity block). -/
def capturedSmiles : String := ""

/-- Transliteration of `renderMolecule(smilesStr, isComparison)` (part_000
lines 254–397).  The early return fires when no engine is loaded (excluded:
the engine is a parameter here) or the string is blank.  `get_mol` throwing
is the outer `catch` branch; a null or invalid molecule is the
`Invalid SMILES` branch, clearing the role's display.  On a valid molecule
the SVG and properties of the role are set.  The function is memoized with
`useCallback(..., [])` in the source, so the state variables free in its
body — `fingerprintType`, `compareSmiles`, `smiles` — are the frozen
first-render captures (`capturedFingerprintType` = `'morgan'`,
`capturedCompareSmiles` = `""`, `capturedSmiles` = `""`), not current
state; only the argument `smilesStr` and the stable state setters carry
current data.  In particular the similarity block (lines 358–374) is
transliterated verbatim but is dead code: its guard reads the frozen
`compareSmiles = ""`. -/
def renderMolecule (engine : Engine) (st : AppState) (smilesStr : String)
    (isComparison : Bool) : AppState :=
  if jsTrim smilesStr = "" then st
  else
    let st0 := { st with error := "" }
    match engine smilesStr with
    | .thrown msg =>
        clearRoleDisplay
          { st0 with error := "Error rendering molecule: " ++ msg } isComparison
    | .nullMol =>
        clearRoleDisplay
          { st0 with error := "Invalid SMILES: \"" ++ smilesStr ++ "\"" } isComparison
    | .ok mol =>
      if mol.is_valid = false then
        clearRoleDisplay
          { st0 with error := "Invalid SMILES: \"" ++ smilesStr ++ "\"" } isComparison
      else
        let st1 :=
          if isComparison then { st0 with compareSvgHtml := mol.svg }
          else { st0 with svgHtml := mol.svg }
        let props := mkProps mol
        let fingerprint := generateFingerprint mol capturedFingerprintType
        let st2 :=
          if isComparison = true ∧ fpTruthy fingerprint = true ∧
              capturedCompareSmiles ≠ "" then
            match engine capturedSmiles with
            | .ok mainMol =>
              if mainMol.is_valid = true then
                match generateFingerprint mainMol capturedFingerprintType,
                    fingerprint with
                | some mainFingerprint, some fp =>
                    if mainFingerprint ≠ "" ∧ fp ≠ "" then
                      let similarity := calculateTanimoto mainFingerprint fp
                      { st1 with tanimotoScore := some similarity }
                    else st1
                | _, _ => st1
              else st1
            | _ => st1
          else st1
        if isComparison then { st2 with compareProperties := some props }
        else { st2 with properties := some props }

/-- Transliteration of `handleSubmit` (part_000 lines 413–418) together with
the reference re-render effect (lines 399–404): a non-blank input sets
`smiles` to its trimmed value, and the effect re-renders the reference when
`smiles` changed to a non-empty value. -/
def submitReference (engine : Engine) (st : AppState) : AppState :=
  if jsTrim st.inputSmiles = "" then st
  else
    let st1 := { st with smiles := jsTrim st.inputSmiles }
    if st1.smiles ≠ st.smiles ∧ st1.smiles ≠ "" then
      renderMolecule engine st1 st1.smiles false
    else st1

/-- Transliteration of `handleCompareSubmit` (part_000 lines 425–430)
together with the comparison re-render effect (lines 406–411). -/
def submitComparison (engine : Engine) (st : AppState) : AppState :=
  if jsTrim st.compareInputSmiles = "" then st
  else
    let st1 := { st with compareSmiles := jsTrim st.compareInputSmiles }
    if st1.compareSmiles ≠ st.compareSmiles ∧ st1.compareSmiles ≠ "" then
      renderMolecule engine st1 st1.compareSmiles true
    else st1

/-- Changing the fingerprint selector (part_000 line 620) together with the
comparison re-render effect (lines 406–411), whose dependency list includes
`fingerprintType`: a changed kind re-renders the comparison molecule when a
comparison SMILES is present. -/
def changeFingerprintType (engine : Engine) (st : AppState)
    (t : FingerprintType) : AppState :=
  let st1 := { st with fingerprintType := t }
  if t ≠ st.fingerprintType ∧ st1.compareSmiles ≠ "" then
    renderMolecule engine st1 st1.compareSmiles true
  else st1

/-- Transliteration of `clearComparison` (part_000 lines 432–438). -/
def clearComparison (st : AppState) : AppState :=
  { st with compareSmiles := ""
            compareInputSmiles := ""
            compareSvgHtml := ""
            compareProperties := none
            tanimotoScore := none }

/-- Transliteration of `toggleComparison` (part_000 lines 440–445): flip the
flag and, when comparison mode was on, clear all comparison-side state.
(Setting `compareSmiles` to `""` does not trigger the comparison effect,
whose body is guarded on a non-empty `compareSmiles`.) -/
def toggleComparison (st : AppState) : AppState :=
  let st1 := { st with showComparison := !st.showComparison }
  if st.showComparison then clearComparison st1 else st1

/-- Transliteration of `loadExample` (part_000 lines 420–423) together with
the reference re-render effect. -/
def loadExample (engine : Engine) (st : AppState) (exampleSmiles : String) :
    AppState :=
  let st1 := { st with inputSmiles := exampleSmiles, smiles := exampleSmiles }
  if st1.smiles ≠ st.smiles ∧ st1.smiles ≠ "" then
    renderMolecule engine st1 st1.smiles false
  else st1

/-- Transliteration of `loadComparisonExample` (part_000 lines 447–452)
together with both re-render effects, which run in declaration order:
reference first, then comparison. -/
def loadComparisonExample (engine : Engine) (st : AppState)
    (referenceSmiles comparisonSmiles : String) : AppState :=
  let st1 := { st with smiles := referenceSmiles
                       inputSmiles := referenceSmiles
                       compareSmiles := comparisonSmiles
                       compareInputSmiles := comparisonSmiles }
  let st2 :=
    if st1.smiles ≠ st.smiles ∧ st1.smiles ≠ "" then
      renderMolecule engine st1 st1.smiles false
    else st1
  if st1.compareSmiles ≠ st.compareSmiles ∧ st1.compareSmiles ≠ "" then
    renderMolecule engine st2 st2.compareSmiles true
  else st2

/-- The user-facing events of the comparison workflow. -/
inductive AppEvent where
  | setInput (s : String)
  | setCompareInput (s : String)
  | submitRef
  | submitCompare
  | selectType (t : FingerprintType)
  | toggleCompare
  | clearCompare
  | loadEx (s : String)
  | loadCompareEx (r c : String)

/-- One step of the workflow: dispatch an event to its handler. -/
def step (engine : Engine) (st : AppState) : AppEvent → AppState
  | .setInput s => { st with inputSmiles := s }
  | .setCompareInput s => { st with compareInputSmiles := s }
  | .submitRef => submitReference engine st
  | .submitCompare => submitComparison engine st
  | .selectType t => changeFingerprintType engine st t
  | .toggleCompare => toggleComparison st
  | .clearCompare => clearComparison st
  | .loadEx s => loadExample engine st s
  | .loadCompareEx r c => loadComparisonExample engine st r c

/-- Run a trace of events from the initial state; the states so reachable
are the reachable states of the comparison workflow. -/
def run (engine : Engine) (events : List AppEvent) : AppState :=
  events.foldl (step engine) initialState

/-! ## Concrete test engine for witnesses and counterexamples -/

/-- A valid test molecule with the given canonical SMILES and the two
fingerprint strings; descriptor fields are left absent. -/
def mkTestMol (smi mfp pfp : String) : RDKitMol :=
  { is_valid := true
    svg := "<svg>" ++ smi ++ "</svg>"
    smiles := smi
    inchi := ""
    exactMW := ""
    avgMW := ""
    logP := ""
    hbDonors := ""
    hbAcceptors := ""
    tpsa := ""
    rotBonds := ""
    rings := ""
    aromaticRings := ""
    heavyAtoms := ""
    fractionCSP3 := ""
    morgan_fp := some mfp
    pattern_fp := some pfp }

/-- A small concrete engine: it accepts ethanol, benzene and propane and
rejects every other string as an invalid SMILES. -/
def demoEngine : Engine := fun s =>
  if s = "CCO" then .ok (mkTestMol "CCO" "1100" "10")
  else if s = "c1ccccc1" then .ok (mkTestMol "c1ccccc1" "0110" "01")
  else if s = "CCC" then .ok (mkTestMol "CCC" "1010" "11")
  else .nullMol

/-! ## Claim C3: does a reference change reset the comparison half? -/

/-- A reference render (`isComparison = false`) never touches any
comparison-side field: not the comparison SMILES, not its input field, not
the comparison SVG or properties, and not the Tanimoto score. -/
theorem renderMolecule_reference_frame (engine : Engine) (st : AppState)
    (s : String) :
    (renderMolecule engine st s false).compareSmiles = st.compareSmiles ∧
    (renderMolecule engine st s false).compareInputSmiles = st.compareInputSmiles ∧
    (renderMolecule engine st s false).compareSvgHtml = st.compareSvgHtml ∧
    (renderMolecule engine st s false).compareProperties = st.compareProperties ∧
    (renderMolecule engine st s false).tanimotoScore = st.tanimotoScore := by
  unfold renderMolecule clearRoleDisplay
  repeat' split
  all_goals simp_all

/-- Counterexample to C3 as stated: from a reachable state in which both
structures are rendered, submitting the new reference `"CCC"` leaves the
comparison Structure Record fully in place — the comparison-side state is
*not* dropped when the reference notation changes, contradicting the
claim's unconditional "the comparison-side state (comparison record, score)
is dropped" clause.  (The conjunct `tanimotoScore = none` in the pre-state
also documents that the claim's "a similarity score exists" precondition is
unsatisfiable: the score-setting branch of `renderMolecule` is dead code
under the frozen `capturedCompareSmiles = ""`.) -/
theorem reference_change_reset_counterexample :
    (run demoEngine [.setInput "CCO", .submitRef, .toggleCompare,
        .setCompareInput "c1ccccc1", .submitCompare]).svgHtml ≠ "" ∧
    (run demoEngine [.setInput "CCO", .submitRef, .toggleCompare,
        .setCompareInput "c1ccccc1", .submitCompare]).compareSvgHtml ≠ "" ∧
    (run demoEngine [.setInput "CCO", .submitRef, .toggleCompare,
        .setCompareInput "c1ccccc1", .submitCompare]).compareProperties.isSome
      = true ∧
    (run demoEngine [.setInput "CCO", .submitRef, .toggleCompare,
        .setCompareInput "c1ccccc1", .submitCompare]).tanimotoScore = none ∧
    (run demoEngine [.setInput "CCO", .submitRef, .toggleCompare,
        .setCompareInput "c1ccccc1", .submitCompare, .setInput "CCC",
        .submitRef]).smiles = "CCC" ∧
    (run demoEngine [.setInput "CCO", .submitRef, .toggleCompare,
        .setCompareInput "c1ccccc1", .submitCompare, .setInput "CCC",
        .submitRef]).compareProperties.isSome = true ∧
    (run demoEngine [.setInput "CCO", .submitRef, .toggleCompare,
        .setCompareInput "c1ccccc1", .submitCompare, .setInput "CCC",
        .submitRef]).compareSvgHtml ≠ "" := by
  refine ⟨by decide, by decide, by decide, by decide, by decide, by decide,
    by decide⟩

/-- C3 (amended).  Submitting a new reference notation string never drops the
comparison half: every comparison-side field — comparison notation, input
field, rendered record, and the similarity-score field — is left exactly as
it was.  (Separately, no reachable state ever holds a similarity score, so
the original claim's "a similarity score exists" precondition is
unsatisfiable in the program; see the C5 theorem.) -/
theorem submitReference_preserves_comparison (engine : Engine) (st : AppState) :
    (submitReference engine st).compareSmiles = st.compareSmiles ∧
    (submitReference engine st).compareInputSmiles = st.compareInputSmiles ∧
    (submitReference engine st).compareSvgHtml = st.compareSvgHtml ∧
    (submitReference engine st).compareProperties = st.compareProperties ∧
    (submitReference engine st).tanimotoScore = st.tanimotoScore := by
  unfold submitReference
  split
  · exact ⟨rfl, rfl, rfl, rfl, rfl⟩
  · dsimp only
    split
    · obtain ⟨h1, h2, h3, h4, h5⟩ := renderMolecule_reference_frame engine
        { st with smiles := jsTrim st.inputSmiles } (jsTrim st.inputSmiles)
      exact ⟨h1, h2, h3, h4, h5⟩
    · exact ⟨rfl, rfl, rfl, rfl, rfl⟩

/-! ## Claim C9: toggling comparison off -/

/-- C9.  Toggling comparison mode off from any comparison state drops all
comparison-side state (comparison notation and input, comparison
record/display, similarity score) and leaves every reference-side field
unchanged — stated as a full-state equation, so all other fields are
untouched by construction. -/
theorem toggleComparison_off (st : AppState) (h : st.showComparison = true) :
    toggleComparison st =
      { st with showComparison := false
                compareSmiles := ""
                compareInputSmiles := ""
                compareSvgHtml := ""
                compareProperties := none
                tanimotoScore := none } := by
  unfold toggleComparison clearComparison
  rw [if_pos h, h]
  simp

/-- Witness for C9 at a concrete reachable comparison state. -/
theorem toggleComparison_off_witness :
    toggleComparison (run demoEngine [.setInput "CCO", .submitRef,
        .toggleCompare, .setCompareInput "c1ccccc1", .submitCompare]) =
      { (run demoEngine [.setInput "CCO", .submitRef, .toggleCompare,
          .setCompareInput "c1ccccc1", .submitCompare]) with
        showComparison := false
        compareSmiles := ""
        compareInputSmiles := ""
        compareSvgHtml := ""
        compareProperties := none
        tanimotoScore := none } :=
  toggleComparison_off _ (by decide)

/-! ## The dead similarity block: no render ever writes a score

The `useCallback([])` memoization freezes `compareSmiles` at `""` inside
`renderMolecule`, so the guard of the similarity block is always falsy and
`setTanimotoScore(similarity)` is never reached.  The following frame lemma
and the per-handler lemmas after it make this precise; they culminate in the
reachable-state invariant `run_tanimotoScore_none`. -/

/-- A render — of either role, under any engine — never changes the
Tanimoto score: the score-setting branch is dead code because its guard
reads the frozen `capturedCompareSmiles = ""`. -/
theorem renderMolecule_score_frame (engine : Engine) (st : AppState)
    (s : String) (b : Bool) :
    (renderMolecule engine st s b).tanimotoScore = st.tanimotoScore := by
  unfold renderMolecule clearRoleDisplay
  dsimp only
  simp only [capturedCompareSmiles, ne_eq, not_true_eq_false, and_false,
    if_false]
  repeat' split
  all_goals simp_all

/-- `handleSubmit` (plus its effect) never changes the score. -/
theorem submitReference_score (engine : Engine) (st : AppState) :
    (submitReference engine st).tanimotoScore = st.tanimotoScore := by
  unfold submitReference
  split
  · rfl
  · dsimp only
    split
    · exact renderMolecule_score_frame engine _ _ false
    · rfl

/-- `handleCompareSubmit` (plus its effect) never changes the score. -/
theorem submitComparison_score (engine : Engine) (st : AppState) :
    (submitComparison engine st).tanimotoScore = st.tanimotoScore := by
  unfold submitComparison
  split
  · rfl
  · dsimp only
    split
    · exact renderMolecule_score_frame engine _ _ true
    · rfl

/-- Changing the fingerprint kind never changes the score. -/
theorem changeFingerprintType_score (engine : Engine) (st : AppState)
    (t : FingerprintType) :
    (changeFingerprintType engine st t).tanimotoScore = st.tanimotoScore := by
  unfold changeFingerprintType
  dsimp only
  split
  · exact renderMolecule_score_frame engine _ _ true
  · rfl

/-- Loading a single example never changes the score. -/
theorem loadExample_score (engine : Engine) (st : AppState) (s : String) :
    (loadExample engine st s).tanimotoScore = st.tanimotoScore := by
  unfold loadExample
  dsimp only
  split
  · exact renderMolecule_score_frame engine _ _ false
  · rfl

/-- Loading a comparison example never changes the score. -/
theorem loadComparisonExample_score (engine : Engine) (st : AppState)
    (r c : String) :
    (loadComparisonExample engine st r c).tanimotoScore = st.tanimotoScore := by
  unfold loadComparisonExample
  dsimp only
  split
  · split
    · rw [renderMolecule_score_frame, renderMolecule_score_frame]
    · rw [renderMolecule_score_frame]
  · split
    · rw [renderMolecule_score_frame]
    · rfl

/-- Every event preserves the absence of a score (toggling or clearing the
comparison resets it to `none`; nothing else ever writes it). -/
theorem step_score_none (engine : Engine) (st : AppState) (e : AppEvent)
    (h : st.tanimotoScore = none) : (step engine st e).tanimotoScore = none := by
  cases e with
  | setInput s => exact h
  | setCompareInput s => exact h
  | submitRef =>
      show (submitReference engine st).tanimotoScore = none
      rw [submitReference_score]
      exact h
  | submitCompare =>
      show (submitComparison engine st).tanimotoScore = none
      rw [submitComparison_score]
      exact h
  | selectType t =>
      show (changeFingerprintType engine st t).tanimotoScore = none
      rw [changeFingerprintType_score]
      exact h
  | toggleCompare =>
      show (toggleComparison st).tanimotoScore = none
      unfold toggleComparison clearComparison
      split
      · rfl
      · exact h
  | clearCompare => rfl
  | loadEx s =>
      show (loadExample engine st s).tanimotoScore = none
      rw [loadExample_score]
      exact h
  | loadCompareEx r c =>
      show (loadComparisonExample engine st r c).tanimotoScore = none
      rw [loadComparisonExample_score]
      exact h

/-! ## Claim C4: switching the fingerprint kind -/

/-- C4 evaluated at the failing input: in a reachable state where both
structures are rendered (both records present), the score is already absent,
and switching the fingerprint kind to `pattern` re-renders the comparison
molecule but still produces *no* score — nothing is invalidated or
recomputed, because the similarity block of the memoized `renderMolecule`
reads the frozen `capturedCompareSmiles = ""` and the frozen
`capturedFingerprintType = morgan`, never the newly selected kind.  This
contradicts the claim (and the spec's intended behaviour, which the
comparison effect's dependency on `fingerprintType` and the score UI
clearly aim at): the `useCallback([])` memoization is the slip. -/
theorem changeFingerprintType_dead_score :
    (run demoEngine [.setInput "CCO", .submitRef, .toggleCompare,
        .setCompareInput "c1ccccc1", .submitCompare]).svgHtml ≠ "" ∧
    (run demoEngine [.setInput "CCO", .submitRef, .toggleCompare,
        .setCompareInput "c1ccccc1", .submitCompare]).compareProperties.isSome
      = true ∧
    (run demoEngine [.setInput "CCO", .submitRef, .toggleCompare,
        .setCompareInput "c1ccccc1", .submitCompare]).tanimotoScore = none ∧
    (changeFingerprintType demoEngine (run demoEngine [.setInput "CCO",
        .submitRef, .toggleCompare, .setCompareInput "c1ccccc1",
        .submitCompare]) .pattern).fingerprintType = .pattern ∧
    (changeFingerprintType demoEngine (run demoEngine [.setInput "CCO",
        .submitRef, .toggleCompare, .setCompareInput "c1ccccc1",
        .submitCompare]) .pattern).tanimotoScore = none := by
  refine ⟨by decide, by decide, by decide, by decide, by decide⟩

/-! ## Claim C5: a score only with a valid comparison record -/

/-- C5.  In every reachable state of the comparison workflow — any engine,
any event trace from the initial state — a Similarity Score is present only
when both Structure Records are valid with same-kind fingerprints, and
after a failed comparison submission no score remains while the comparison
record is absent.  The invariant holds in its strongest, degenerate form:
no reachable state holds a score at all, because the score-setting branch
of the memoized `renderMolecule` is dead code (its guard reads the frozen
`capturedCompareSmiles = ""`), and the only other writes to the score field
(`clearComparison`, comparison toggle-off) set it to `none`. -/
theorem run_tanimotoScore_none (engine : Engine) (es : List AppEvent) :
    (run engine es).tanimotoScore = none := by
  have key : ∀ st : AppState, st.tanimotoScore = none →
      (es.foldl (step engine) st).tanimotoScore = none := by
    induction es with
    | nil => intro st h; exact h
    | cons e es ih =>
        intro st h
        exact ih _ (step_score_none engine st e h)
  exact key initialState rfl

/-! ## Claim C6: invalid submissions -/

/-- A render never changes the submitted-notation fields (`smiles`,
`inputSmiles`, `compareSmiles`, `compareInputSmiles`), the selected
fingerprint kind, or the comparison-mode flag, for either role. -/
theorem renderMolecule_preserves_inputs (engine : Engine) (st : AppState)
    (s : String) (b : Bool) :
    (renderMolecule engine st s b).smiles = st.smiles ∧
    (renderMolecule engine st s b).inputSmiles = st.inputSmiles ∧
    (renderMolecule engine st s b).compareSmiles = st.compareSmiles ∧
    (renderMolecule engine st s b).compareInputSmiles = st.compareInputSmiles ∧
    (renderMolecule engine st s b).fingerprintType = st.fingerprintType ∧
    (renderMolecule engine st s b).showComparison = st.showComparison := by
  unfold renderMolecule clearRoleDisplay
  dsimp only
  repeat' split
  all_goals simp_all

/-- An invalid reference render (null or invalid molecule) produces no
record, clears the reference display and surfaces the advisory naming the
offending string. -/
theorem renderMolecule_reference_invalid (engine : Engine) (st : AppState)
    (s : String) (hs : jsTrim s ≠ "")
    (h : engine s = .nullMol ∨ ∃ m, engine s = .ok m ∧ m.is_valid = false) :
    (renderMolecule engine st s false).properties = none ∧
    (renderMolecule engine st s false).svgHtml = "" ∧
    (renderMolecule engine st s false).error = "Invalid SMILES: \"" ++ s ++ "\"" := by
  unfold renderMolecule clearRoleDisplay
  rw [if_neg hs]
  rcases h with h | ⟨m, hm, hv⟩
  · simp [h]
  · simp [hm, hv]

/-- A valid reference render installs the molecule's SVG and properties and
clears the error field. -/
theorem renderMolecule_reference_valid (engine : Engine) (st : AppState)
    (s : String) (m : RDKitMol) (hs : jsTrim s ≠ "")
    (hm : engine s = .ok m) (hv : m.is_valid = true) :
    (renderMolecule engine st s false).properties = some (mkProps m) ∧
    (renderMolecule engine st s false).svgHtml = m.svg ∧
    (renderMolecule engine st s false).error = "" := by
  unfold renderMolecule clearRoleDisplay
  rw [if_neg hs]
  simp [hm, hv]

/-- A non-blank reference submission whose trimmed value differs from the
current reference reduces to a reference render from the updated state. -/
theorem submitReference_eq_render (engine : Engine) (st : AppState)
    (h0 : jsTrim st.inputSmiles ≠ "") (h1 : jsTrim st.inputSmiles ≠ st.smiles) :
    submitReference engine st =
      renderMolecule engine { st with smiles := jsTrim st.inputSmiles }
        (jsTrim st.inputSmiles) false := by
  unfold submitReference
  rw [if_neg h0]
  dsimp only
  rw [if_pos ⟨h1, h0⟩]

/-- An invalid comparison render (null or invalid molecule) produces no
comparison record, clears the comparison display and surfaces the advisory
naming the offending string. -/
theorem renderMolecule_comparison_invalid (engine : Engine) (st : AppState)
    (s : String) (hs : jsTrim s ≠ "")
    (h : engine s = .nullMol ∨ ∃ m, engine s = .ok m ∧ m.is_valid = false) :
    (renderMolecule engine st s true).compareProperties = none ∧
    (renderMolecule engine st s true).compareSvgHtml = "" ∧
    (renderMolecule engine st s true).error = "Invalid SMILES: \"" ++ s ++ "\"" := by
  unfold renderMolecule clearRoleDisplay
  rw [if_neg hs]
  rcases h with h | ⟨m, hm, hv⟩
  · simp [h]
  · simp [hm, hv]

/-- A valid comparison render installs the molecule's SVG and properties and
clears the error field (the similarity block stays dead). -/
theorem renderMolecule_comparison_valid (engine : Engine) (st : AppState)
    (s : String) (m : RDKitMol) (hs : jsTrim s ≠ "")
    (hm : engine s = .ok m) (hv : m.is_valid = true) :
    (renderMolecule engine st s true).compareProperties = some (mkProps m) ∧
    (renderMolecule engine st s true).compareSvgHtml = m.svg ∧
    (renderMolecule engine st s true).error = "" := by
  unfold renderMolecule clearRoleDisplay
  rw [if_neg hs]
  simp [hm, hv, capturedCompareSmiles]

/-- A non-blank comparison submission whose trimmed value differs from the
current comparison notation reduces to a comparison render from the updated
state. -/
theorem submitComparison_eq_render (engine : Engine) (st : AppState)
    (h0 : jsTrim st.compareInputSmiles ≠ "")
    (h1 : jsTrim st.compareInputSmiles ≠ st.compareSmiles) :
    submitComparison engine st =
      renderMolecule engine
        { st with compareSmiles := jsTrim st.compareInputSmiles }
        (jsTrim st.compareInputSmiles) true := by
  unfold submitComparison
  rw [if_neg h0]
  dsimp only
  rw [if_pos ⟨h1, h0⟩]

/-- Counterexample to C6 as stated, at two concrete invalid submissions.
First, submitting the empty string — an invalid notation string per the
spec's own example — is silently ignored by `handleSubmit`: the previously
displayed reference record is *not* cleared and *no* advisory naming the
offending string is surfaced.  Second, resubmitting the invalid string
`"xyz"` that is already the current reference is also a no-op (`setSmiles`
keeps the value, so the re-render effect does not fire): the advisory still
names `"abc"` from an intervening comparison failure, not the submitted
`"xyz"`. -/
theorem submit_invalid_advisory_counterexample :
    (run demoEngine [.setInput "CCO", .submitRef, .setInput "",
        .submitRef]).properties.isSome = true ∧
    (run demoEngine [.setInput "CCO", .submitRef, .setInput "",
        .submitRef]).svgHtml = "<svg>CCO</svg>" ∧
    (run demoEngine [.setInput "CCO", .submitRef, .setInput "",
        .submitRef]).error = "" ∧
    (run demoEngine [.setInput "xyz", .submitRef, .toggleCompare,
        .setCompareInput "abc", .submitCompare, .submitRef]).inputSmiles
      = "xyz" ∧
    (run demoEngine [.setInput "xyz", .submitRef, .toggleCompare,
        .setCompareInput "abc", .submitCompare, .submitRef]).error =
      "Invalid SMILES: \"abc\"" := by
  refine ⟨by decide, by decide, by decide, by decide, by decide⟩

/-- C6 (amended).  For either role (reference via `handleSubmit`, comparison
via `handleCompareSubmit`): submitting a *non-blank* invalid notation
string whose trimmed value differs from the role's current submitted string
never produces a Structure Record for that role, clears the previously
displayed record for that role, and surfaces an advisory naming the
offending (trimmed) string verbatim; a subsequent valid submission for that
role fully recovers normal display.  Excluded by the counterexample: blank
submissions are ignored outright by the submit handlers (no clearing, no
advisory), and resubmitting the role's current string is a no-op (the
re-render effect does not fire, so no fresh advisory is surfaced even when
that string is invalid). -/
theorem submit_invalid_clears (engine : Engine) (st : AppState) :
    (jsTrim st.inputSmiles ≠ "" → jsTrim st.inputSmiles ≠ st.smiles →
      (engine (jsTrim st.inputSmiles) = .nullMol ∨
        ∃ m, engine (jsTrim st.inputSmiles) = .ok m ∧ m.is_valid = false) →
      (submitReference engine st).properties = none ∧
      (submitReference engine st).svgHtml = "" ∧
      (submitReference engine st).error =
        "Invalid SMILES: \"" ++ jsTrim st.inputSmiles ++ "\"" ∧
      ∀ s2 m2, jsTrim s2 ≠ "" → jsTrim s2 ≠ jsTrim st.inputSmiles →
        engine (jsTrim s2) = .ok m2 → m2.is_valid = true →
        (submitReference engine
          { submitReference engine st with inputSmiles := s2 }).properties =
            some (mkProps m2) ∧
        (submitReference engine
          { submitReference engine st with inputSmiles := s2 }).svgHtml =
            m2.svg ∧
        (submitReference engine
          { submitReference engine st with inputSmiles := s2 }).error = "") ∧
    (jsTrim st.compareInputSmiles ≠ "" →
      jsTrim st.compareInputSmiles ≠ st.compareSmiles →
      (engine (jsTrim st.compareInputSmiles) = .nullMol ∨
        ∃ m, engine (jsTrim st.compareInputSmiles) = .ok m ∧
          m.is_valid = false) →
      (submitComparison engine st).compareProperties = none ∧
      (submitComparison engine st).compareSvgHtml = "" ∧
      (submitComparison engine st).error =
        "Invalid SMILES: \"" ++ jsTrim st.compareInputSmiles ++ "\"" ∧
      ∀ s2 m2, jsTrim s2 ≠ "" → jsTrim s2 ≠ jsTrim st.compareInputSmiles →
        engine (jsTrim s2) = .ok m2 → m2.is_valid = true →
        (submitComparison engine
          { submitComparison engine st with
            compareInputSmiles := s2 }).compareProperties =
            some (mkProps m2) ∧
        (submitComparison engine
          { submitComparison engine st with
            compareInputSmiles := s2 }).compareSvgHtml = m2.svg ∧
        (submitComparison engine
          { submitComparison engine st with
            compareInputSmiles := s2 }).error = "") := by
  constructor
  · intro h0 h1 h2
    have hmid := submitReference_eq_render engine st h0 h1
    obtain ⟨p1, p2, p3⟩ := renderMolecule_reference_invalid engine
      { st with smiles := jsTrim st.inputSmiles } (jsTrim st.inputSmiles)
      (jsTrim_jsTrim_ne_empty h0) h2
    have hsm : (submitReference engine st).smiles = jsTrim st.inputSmiles := by
      rw [hmid]
      exact (renderMolecule_preserves_inputs engine _ _ false).1
    refine ⟨hmid ▸ p1, hmid ▸ p2, hmid ▸ p3, ?_⟩
    intro s2 m2 hs2 hneq hok hv2
    have hmid2 := submitReference_eq_render engine
      { submitReference engine st with inputSmiles := s2 }
      (by simpa using hs2) (by simpa [hsm] using hneq)
    rw [hmid2]
    exact renderMolecule_reference_valid engine _ _ m2
      (jsTrim_jsTrim_ne_empty (by simpa using hs2)) (by simpa using hok) hv2
  · intro h0 h1 h2
    have hmid := submitComparison_eq_render engine st h0 h1
    obtain ⟨p1, p2, p3⟩ := renderMolecule_comparison_invalid engine
      { st with compareSmiles := jsTrim st.compareInputSmiles }
      (jsTrim st.compareInputSmiles) (jsTrim_jsTrim_ne_empty h0) h2
    have hsm : (submitComparison engine st).compareSmiles =
        jsTrim st.compareInputSmiles := by
      rw [hmid]
      exact (renderMolecule_preserves_inputs engine _ _ true).2.2.1
    refine ⟨hmid ▸ p1, hmid ▸ p2, hmid ▸ p3, ?_⟩
    intro s2 m2 hs2 hneq hok hv2
    have hmid2 := submitComparison_eq_render engine
      { submitComparison engine st with compareInputSmiles := s2 }
      (by simpa using hs2) (by simpa [hsm] using hneq)
    rw [hmid2]
    exact renderMolecule_comparison_valid engine _ _ m2
      (jsTrim_jsTrim_ne_empty (by simpa using hs2)) (by simpa using hok) hv2

/-- Witness for the amended C6, both roles.  Reference: submitting the
malformed `"xyz"` over a rendered reference clears the record and names the
string, and resubmitting benzene recovers the display.  Comparison:
submitting the malformed `"qqq"` clears the comparison display and names
the string, and a subsequent valid benzene comparison recovers it. -/
theorem submit_invalid_clears_witness :
    (submitReference demoEngine (run demoEngine [.setInput "CCO", .submitRef,
        .setInput "xyz"])).properties = none ∧
    (submitReference demoEngine (run demoEngine [.setInput "CCO", .submitRef,
        .setInput "xyz"])).error = "Invalid SMILES: \"" ++
      jsTrim (run demoEngine [.setInput "CCO", .submitRef,
        .setInput "xyz"]).inputSmiles ++ "\"" ∧
    (submitReference demoEngine
      { submitReference demoEngine (run demoEngine [.setInput "CCO",
          .submitRef, .setInput "xyz"]) with
        inputSmiles := "c1ccccc1" }).properties =
      some (mkProps (mkTestMol "c1ccccc1" "0110" "01")) ∧
    (submitComparison demoEngine (run demoEngine [.setInput "CCO", .submitRef,
        .toggleCompare, .setCompareInput "qqq"])).compareProperties = none ∧
    (submitComparison demoEngine (run demoEngine [.setInput "CCO", .submitRef,
        .toggleCompare, .setCompareInput "qqq"])).error =
      "Invalid SMILES: \"" ++ jsTrim (run demoEngine [.setInput "CCO",
        .submitRef, .toggleCompare, .setCompareInput "qqq"]).compareInputSmiles
        ++ "\"" ∧
    (submitComparison demoEngine
      { submitComparison demoEngine (run demoEngine [.setInput "CCO",
          .submitRef, .toggleCompare, .setCompareInput "qqq"]) with
        compareInputSmiles := "c1ccccc1" }).compareProperties =
      some (mkProps (mkTestMol "c1ccccc1" "0110" "01")) := by
  have hr := (submit_invalid_clears demoEngine
    (run demoEngine [.setInput "CCO", .submitRef, .setInput "xyz"])).1
    (by decide) (by decide) (Or.inl (by decide))
  have hc := (submit_invalid_clears demoEngine
    (run demoEngine [.setInput "CCO", .submitRef, .toggleCompare,
      .setCompareInput "qqq"])).2
    (by decide) (by decide) (Or.inl (by decide))
  exact ⟨hr.1, hr.2.2.1,
    (hr.2.2.2 "c1ccccc1" (mkTestMol "c1ccccc1" "0110" "01") (by decide)
      (by decide) (by decide) (by decide)).1,
    hc.1, hc.2.2.1,
    (hc.2.2.2 "c1ccccc1" (mkTestMol "c1ccccc1" "0110" "01") (by decide)
      (by decide) (by decide) (by decide)).1⟩
